import Mathlib

/-!
Verification of the coordinate-conversion core of `src/main.py` (FastAPI service
«Конвертер координат»).  The embedding models the active (non-commented) part of
the file: the default Helmert parameter table (`create_default_parameters`), the
transform `GSK_2011`, and the Markdown report generator
(`generate_markdown_report`).  Coordinates and parameters are embedded as exact
rationals (`ℚ`): the Python code evaluates the same linear formula in
floating point via sympy; the idealised exact semantics is used throughout.
-/

namespace Prac10

/-- A row of the input table: columns `Name`, `X`, `Y`, `Z`. -/
structure Point where
  name : String
  x : ℚ
  y : ℚ
  z : ℚ
  deriving Repr, Inhabited

/-- The seven Helmert parameters of one frame, exactly as stored by
`create_default_parameters`: translations `ΔX ΔY ΔZ` (m), rotations
`ωx ωy ωz` (rad) and the differential scale `m` stored in ppm
(multiplied by `1e-6` only inside `GSK_2011`). -/
structure FrameParams where
  ΔX : ℚ
  ΔY : ℚ
  ΔZ : ℚ
  ωx : ℚ
  ωy : ℚ
  ωz : ℚ
  m : ℚ
  deriving Repr

/-- The JSON object written by `create_default_parameters` is embedded as an
association list keyed by the Cyrillic frame names. -/
abbrev ParamStore := List (String × FrameParams)

/-- The parameter table written by `create_default_parameters` in
`src/main.py` (lines 186–244), entry by entry, with the exact numerals of the
source. -/
def create_default_parameters : ParamStore :=
  [ ("СК-42",    ⟨23.56, -140.86, -79.77, -8.423e-9, -1.678e-6, -3.849e-6, -0.2274⟩),
    ("СК-95",    ⟨24.46, -130.80, -81.53, -8.423e-9, 1.724e-8, -6.511e-7, -0.2274⟩),
    ("ПЗ-90",    ⟨-1.443, 0.142, 0.230, -8.423e-9, 1.724e-8, -6.511e-7, -0.2274⟩),
    ("ПЗ-90.02", ⟨-0.373, 0.172, 0.210, -8.423e-9, 1.724e-8, -2.061e-8, -0.0074⟩),
    ("ПЗ-90.11", ⟨0.0, -0.014, 0.008, 2.724e-9, 9.212e-11, -2.566e-10, 0.0006⟩),
    ("ГСК-2011", ⟨0, 0, 0, 0, 0, 0, 0⟩) ]

/-- The only failure the transform itself raises: the `ValueError`
«Исходная система … отсутствует в параметрах» of `src/main.py` line 268 (the
spec calls it `UnknownFrameError`).  No other error is raised by `GSK_2011`. -/
inductive TransformError where
  | unknownFrame : String → TransformError
  deriving Repr, DecidableEq

/-- One application of the substituted formula of `GSK_2011` (line 262) to a
single row: `(1 + m·1e-6) · R(ωx,ωy,ωz) · (X,Y,Z)ᵗ + (ΔX,ΔY,ΔZ)ᵗ`, with the
matrix product written out component-wise exactly as sympy computes it.  The
`* 1e-6` on `m` is the `param["m"] * 1e-6` of line 278. -/
def applyFormula (p : FrameParams) (pt : Point) : Point :=
  { name := pt.name
    x := (1 + p.m * 1e-6) * (1 * pt.x + p.ωz * pt.y + (-p.ωy) * pt.z) + p.ΔX
    y := (1 + p.m * 1e-6) * ((-p.ωz) * pt.x + 1 * pt.y + p.ωx * pt.z) + p.ΔY
    z := (1 + p.m * 1e-6) * (p.ωy * pt.x + (-p.ωx) * pt.y + 1 * pt.z) + p.ΔZ }

/-- The direct branch of `GSK_2011` (lines 259–300): look the *source* frame
up in the parameter store — the target plays no role — and on success apply
the formula to every row in order. -/
def directGSK (sk1 : String) (params : ParamStore) (df : List Point) :
    Except TransformError (List Point) :=
  match params.lookup sk1 with
  | none => .error (.unknownFrame sk1)
  | some p => .ok (df.map (applyFormula p))

/-- The transform `GSK_2011` of `src/main.py` (lines 247–300).  The special
pair СК-95 → СК-42 (lines 254–257) recurses with the pairs
(СК-95, ПЗ-90.11) and (ПЗ-90.11, СК-42); both fail the special-case guard, so
the recursive calls are inlined here as their direct branches, which is what
they evaluate to in the source. -/
def GSK_2011 (sk1 sk2 : String) (params : ParamStore) (df : List Point) :
    Except TransformError (List Point) :=
  if sk1 = "СК-95" ∧ sk2 = "СК-42" then
    match directGSK "СК-95" params df with
    | .error e => .error e
    | .ok mid => directGSK "ПЗ-90.11" params mid
  else
    directGSK sk1 params df

/-- The small-angle rotation matrix `R` of the spec (§4.2) and of line 262 of
the source: `[[1, ωz, -ωy], [-ωz, 1, ωx], [ωy, -ωx, 1]]`. -/
def smallAngleR (p : FrameParams) : Matrix (Fin 3) (Fin 3) ℚ :=
  !![1, p.ωz, -p.ωy; -p.ωz, 1, p.ωx; p.ωy, -p.ωx, 1]

/-- The coordinate column vector of a row. -/
def toVec (pt : Point) : Fin 3 → ℚ := ![pt.x, pt.y, pt.z]

/-- The translation column vector of a frame. -/
def shiftVec (p : FrameParams) : Fin 3 → ℚ := ![p.ΔX, p.ΔY, p.ΔZ]

/-- Formalisation of the spec's per-point formula (§4.2):
`scale • R(ωx,ωy,ωz) ⬝ (X,Y,Z)ᵗ + (ΔX,ΔY,ΔZ)ᵗ` with `scale = 1 + scale_ppm·1e-6`,
stated with the genuine matrix-vector product, to be compared with the
component-wise `applyFormula` embedded from the source. -/
def helmertSpecPoint (p : FrameParams) (pt : Point) : Point :=
  let v := (1 + p.m * 1e-6) • (smallAngleR p).mulVec (toVec pt) + shiftVec p
  { name := pt.name, x := v 0, y := v 1, z := v 2 }

theorem helmertSpecPoint_eq_applyFormula (p : FrameParams) (pt : Point) :
    helmertSpecPoint p pt = applyFormula p pt := by
  simp only [helmertSpecPoint, applyFormula, smallAngleR, toVec, shiftVec, Point.mk.injEq]
  refine ⟨trivial, ?_, ?_, ?_⟩ <;>
  · simp [Matrix.mulVec, Matrix.dotProduct, Fin.sum_univ_three, Matrix.cons_val_zero,
      Matrix.cons_val_one, Matrix.head_cons, Matrix.cons_val_two, Matrix.head_fin_const,
      Matrix.of_apply, Matrix.cons_val', Matrix.empty_val', Matrix.cons_val_fin_one]
    ring

theorem gsk_direct_of_not_special (sk1 sk2 : String) (params : ParamStore)
    (df : List Point) (hs : ¬(sk1 = "СК-95" ∧ sk2 = "СК-42")) :
    GSK_2011 sk1 sk2 params df = directGSK sk1 params df := by
  simp [GSK_2011, hs]

/-- C1: in the direct case (the special pair СК-95→СК-42 excluded), when the
source frame has a parameter entry, `GSK_2011` maps every point to
`(1 + m·1e-6) · R(ωx,ωy,ωz) · (X,Y,Z)ᵗ + (ΔX,ΔY,ΔZ)ᵗ`, `R` being the
small-angle matrix `[[1,ωz,-ωy],[-ωz,1,ωx],[ωy,-ωx,1]]`, all seven parameters
taken from the source frame, the stored ppm scale multiplied by `1e-6`. -/
theorem direct_case_is_helmert_formula (sk1 sk2 : String) (params : ParamStore)
    (df : List Point) (p : FrameParams)
    (hp : params.lookup sk1 = some p)
    (hs : ¬(sk1 = "СК-95" ∧ sk2 = "СК-42")) :
    GSK_2011 sk1 sk2 params df = .ok (df.map (helmertSpecPoint p)) := by
  rw [gsk_direct_of_not_special sk1 sk2 params df hs]
  simp only [directGSK, hp]
  congr 1
  exact List.map_congr_left fun pt _ => (helmertSpecPoint_eq_applyFormula p pt).symm

/-- Closed instance of `direct_case_is_helmert_formula`: source СК-42,
target ГСК-2011, one concrete row. -/
theorem direct_case_is_helmert_formula_witness :
    create_default_parameters.lookup "СК-42" =
        some ⟨23.56, -140.86, -79.77, -8.423e-9, -1.678e-6, -3.849e-6, -0.2274⟩
      ∧ ¬(("СК-42" : String) = "СК-95" ∧ ("ГСК-2011" : String) = "СК-42")
      ∧ GSK_2011 "СК-42" "ГСК-2011" create_default_parameters [⟨"A", 1, 2, 3⟩] =
          .ok ([⟨"A", 1, 2, 3⟩].map (helmertSpecPoint
            ⟨23.56, -140.86, -79.77, -8.423e-9, -1.678e-6, -3.849e-6, -0.2274⟩)) :=
  ⟨rfl, by decide,
    direct_case_is_helmert_formula "СК-42" "ГСК-2011" create_default_parameters
      [⟨"A", 1, 2, 3⟩] _ rfl (by decide)⟩

/-- C2: the request (СК-95, СК-42) returns exactly the chaining of the request
(СК-95, ПЗ-90.11) followed by the request (ПЗ-90.11, СК-42) on its output,
for every parameter store and every batch. -/
theorem composed_sk95_sk42 (params : ParamStore) (df : List Point) :
    GSK_2011 "СК-95" "СК-42" params df =
      match GSK_2011 "СК-95" "ПЗ-90.11" params df with
      | .error e => .error e
      | .ok mid => GSK_2011 "ПЗ-90.11" "СК-42" params mid := by
  have h1 : GSK_2011 "СК-95" "ПЗ-90.11" params df = directGSK "СК-95" params df :=
    gsk_direct_of_not_special _ _ _ _ (by decide)
  have h2 : ∀ mid, GSK_2011 "ПЗ-90.11" "СК-42" params mid = directGSK "ПЗ-90.11" params mid :=
    fun mid => gsk_direct_of_not_special _ _ _ _ (by decide)
  rw [h1]
  show (if _ ∧ _ then _ else _) = _
  rw [if_pos ⟨rfl, rfl⟩]
  cases directGSK "СК-95" params df with
  | error e => rfl
  | ok mid => exact (h2 mid).symm

/-- C7: transforming with source and target both ГСК-2011 (the hub, whose
seven stored parameters are all zero) returns the batch unchanged exactly:
coordinates, names and row order. -/
theorem hub_to_hub_is_identity (df : List Point) :
    GSK_2011 "ГСК-2011" "ГСК-2011" create_default_parameters df = .ok df := by
  rw [gsk_direct_of_not_special _ _ _ _ (by decide)]
  have hp : create_default_parameters.lookup "ГСК-2011" = some ⟨0, 0, 0, 0, 0, 0, 0⟩ := rfl
  simp only [directGSK, hp]
  have hid : ∀ pt : Point, applyFormula ⟨0, 0, 0, 0, 0, 0, 0⟩ pt = pt := by
    intro pt
    simp only [applyFormula]
    cases pt with
    | mk name x y z => simp only [Point.mk.injEq]; refine ⟨trivial, by ring, by ring, by ring⟩
  rw [List.map_congr_left fun pt _ => hid pt]
  simp

/-- C9: outside the special pair (СК-95, СК-42), the output of `GSK_2011` does
not depend on the target argument at all: any two targets (known or unknown)
give identical results for the same source and batch. -/
theorem target_independence (sk1 sk2 sk2' : String) (params : ParamStore)
    (df : List Point)
    (h : ¬(sk1 = "СК-95" ∧ sk2 = "СК-42"))
    (h' : ¬(sk1 = "СК-95" ∧ sk2' = "СК-42")) :
    GSK_2011 sk1 sk2 params df = GSK_2011 sk1 sk2' params df := by
  rw [gsk_direct_of_not_special sk1 sk2 params df h,
    gsk_direct_of_not_special sk1 sk2' params df h']

/-- Closed instance of `target_independence`: source СК-42 with the unknown
target «WGS84_G1150» and an arbitrary other target string. -/
theorem target_independence_witness :
    ¬(("СК-42" : String) = "СК-95" ∧ ("WGS84_G1150" : String) = "СК-42")
      ∧ ¬(("СК-42" : String) = "СК-95" ∧ ("Марс" : String) = "СК-42")
      ∧ GSK_2011 "СК-42" "WGS84_G1150" create_default_parameters [⟨"A", 1, 2, 3⟩] =
          GSK_2011 "СК-42" "Марс" create_default_parameters [⟨"A", 1, 2, 3⟩] :=
  ⟨by decide, by decide,
    target_independence "СК-42" "WGS84_G1150" "Марс" create_default_parameters
      [⟨"A", 1, 2, 3⟩] (by decide) (by decide)⟩

/-- The spec's §4.1 default parameter table, transcribed row by row from the
spec (dx, dy, dz, wx, wy, wz, scale_ppm per frame), keyed by the Cyrillic
frame names the code uses, for comparison with `create_default_parameters`. -/
def specDefaultTable : ParamStore :=
  [ ("СК-42",    ⟨23.56, -140.86, -79.77, -8.423e-9, -1.678e-6, -3.849e-6, -0.2274⟩),
    ("СК-95",    ⟨24.46, -130.80, -81.53, -8.423e-9, 1.724e-8, -6.511e-7, -0.2274⟩),
    ("ПЗ-90",    ⟨-1.443, 0.142, 0.230, -8.423e-9, 1.724e-8, -6.511e-7, -0.2274⟩),
    ("ПЗ-90.02", ⟨-0.373, 0.172, 0.210, -8.423e-9, 1.724e-8, -2.061e-8, -0.0074⟩),
    ("ПЗ-90.11", ⟨0.0, -0.014, 0.008, 2.724e-9, 9.212e-11, -2.566e-10, 0.0006⟩),
    ("ГСК-2011", ⟨0, 0, 0, 0, 0, 0, 0⟩) ]

/-- C5: the default store holds exactly the six frames СК-42, СК-95, ПЗ-90,
ПЗ-90.02, ПЗ-90.11, ГСК-2011 in this order, each with the seven values of the
spec's §4.1 table, and the hub ГСК-2011 has all seven parameters zero. -/
theorem default_store_matches_spec_table :
    create_default_parameters.map Prod.fst =
        ["СК-42", "СК-95", "ПЗ-90", "ПЗ-90.02", "ПЗ-90.11", "ГСК-2011"]
      ∧ create_default_parameters = specDefaultTable
      ∧ create_default_parameters.lookup "ГСК-2011" = some ⟨0, 0, 0, 0, 0, 0, 0⟩ :=
  ⟨rfl, rfl, rfl⟩

/-- C6: a source frame absent from the default store makes `GSK_2011` fail
with the unknown-frame error (the `ValueError` of line 268); the `Except`
result carries no rows, so the failure is total. -/
theorem unknown_source_fails (sk1 sk2 : String) (df : List Point)
    (h : create_default_parameters.lookup sk1 = none) :
    GSK_2011 sk1 sk2 create_default_parameters df = .error (.unknownFrame sk1) := by
  have hs : ¬(sk1 = "СК-95" ∧ sk2 = "СК-42") := by
    rintro ⟨rfl, -⟩
    simp [create_default_parameters, List.lookup] at h
  rw [gsk_direct_of_not_special _ _ _ _ hs]
  simp [directGSK, h]

/-- Closed instance of `unknown_source_fails` at source «Mars». -/
theorem unknown_source_fails_witness :
    create_default_parameters.lookup "Mars" = none
      ∧ GSK_2011 "Mars" "ГСК-2011" create_default_parameters [⟨"A", 1, 2, 3⟩] =
        .error (.unknownFrame "Mars") :=
  ⟨rfl, unknown_source_fails "Mars" "ГСК-2011" [⟨"A", 1, 2, 3⟩] rfl⟩

/-- Half-even rounding to the nearest integer, the rounding Python's
fixed-point float formatting applies. -/
def roundHalfEven (q : ℚ) : ℤ :=
  let f := ⌊q⌋
  if q - f < 1 / 2 then f
  else if 1 / 2 < q - f then f + 1
  else if f % 2 = 0 then f else f + 1

/-- Embedding of the Python format directive `%.precf`: fixed-point decimal
rendering with `prec` digits after the point. -/
def fmtFixed (prec : ℕ) (q : ℚ) : String :=
  let scaled := roundHalfEven (q * (10 : ℚ) ^ prec)
  let a := scaled.natAbs
  let ip := a / 10 ^ prec
  let fp := a % 10 ^ prec
  let fpStr := Nat.repr fp
  let pad := String.mk (List.replicate (prec - fpStr.length) '0')
  (if q < 0 then "-" else "") ++ Nat.repr ip ++ "." ++ pad ++ fpStr

/-- Lines 304–306 of the source: title and the two frame-name lines. -/
def reportHeader (source_system target_system : String) : String :=
  "# Отчёт по преобразованию координат\n"
    ++ "Исходная система: " ++ source_system ++ "\n"
    ++ "Конечная система: " ++ target_system ++ "\n\n"

/-- Section 1 of the report (lines 309–315): the general Helmert formula,
a constant string. -/
def generalFormulaText : String :=
  "## 1. Общая формула\n" ++ "$$ \n"
    ++ "\\begin\x7bbmatrix\x7d X\x27 \\\\ Y\x27 \\\\ Z\x27 \\end\x7bbmatrix\x7d = (1 + m) \\cdot "
    ++ "\\begin\x7bbmatrix\x7d 1 & \\omega_z & -\\omega_y \\\\ -\\omega_z & 1 & \\omega_x \\\\ \\omega_y & -\\omega_x & 1 \\end\x7bbmatrix\x7d \\cdot "
    ++ "\\begin\x7bbmatrix\x7d X \\\\ Y \\\\ Z \\end\x7bbmatrix\x7d + "
    ++ "\\begin\x7bbmatrix\x7d \\Delta X \\\\ \\Delta Y \\\\ \\Delta Z \\end\x7bbmatrix\x7d"
    ++ "\n$$\n\n"

/-- Section 2 of the report (lines 318–324): the «формула с подстановкой
параметров».  In the source this is one hard-coded string — the numerals are
those of СК-42 — with no dependence on the request's source frame. -/
def substitutedFormulaText : String :=
  "## 2. Формула с подстановкой параметров\n" ++ "$$ \n"
    ++ "\\begin\x7bbmatrix\x7d X\x27 \\\\ Y\x27 \\\\ Z\x27 \\end\x7bbmatrix\x7d = "
    ++ "\\begin\x7bbmatrix\x7d 0.9999997726 X - 3.8489991247374 \\cdot 10^\x7b-6\x7d Y + 1.6779996184228 \\cdot 10^\x7b-6\x7d Z + 23.56 \\\\ "
    ++ "3.8489991247374 \\cdot 10^\x7b-6\x7d X + 0.9999997726 Y - 8.4229980846098 \\cdot 10^\x7b-9\x7d Z - 140.86 \\\\ "
    ++ "-1.6779996184228 \\cdot 10^\x7b-6\x7d X + 8.4229980846098 \\cdot 10^\x7b-9\x7d Y + 0.9999997726 Z - 79.77 \\end\x7bbmatrix\x7d"
    ++ "\n$$\n\n"

/-- Section 3 of the report (lines 327–337): the worked example built from the
first row of each batch (`df_before.iloc[0]`, `df_after.iloc[0]`). -/
def workedExampleText (b0 a0 : Point) : String :=
  "## 3. Пример для первой точки\n"
    ++ "Исходные: $X=" ++ fmtFixed 6 b0.x ++ ",\\;Y=" ++ fmtFixed 6 b0.y
    ++ ",\\;Z=" ++ fmtFixed 6 b0.z ++ "$\n"
    ++ "$$ \n"
    ++ "\\begin\x7bbmatrix\x7d " ++ fmtFixed 6 a0.x ++ " \\\\ " ++ fmtFixed 6 a0.y
    ++ " \\\\ " ++ fmtFixed 6 a0.z ++ " \\end\x7bbmatrix\x7d"
    ++ "\n$$\n"
    ++ "Численный результат: $X\x27=" ++ fmtFixed 6 a0.x ++ ",\\;Y\x27="
    ++ fmtFixed 6 a0.y ++ ",\\;Z\x27=" ++ fmtFixed 6 a0.z ++ "$\n\n"

/-- The heading and column header of section 4's table (lines 340–342). -/
def tableHeadText : String :=
  "## 4. Таблица до и после и статистика\n"
    ++ "| Name | X | Y | Z | X\x27 | Y\x27 | Z\x27 |\n"
    ++ "| --- | --- | --- | --- | --- | --- | --- |\n"

/-- One data row of the table (line 346): name and the six coordinates, each
rendered with `%.6f`. -/
def tableRow (b a : Point) : String :=
  "| " ++ b.name ++ " | " ++ fmtFixed 6 b.x ++ " | " ++ fmtFixed 6 b.y ++ " | "
    ++ fmtFixed 6 b.z ++ " | " ++ fmtFixed 6 a.x ++ " | " ++ fmtFixed 6 a.y
    ++ " | " ++ fmtFixed 6 a.z ++ " |\n"

/-- The loop of lines 343–346: one table row for each
`i ∈ range (min 10 (len df_before))`, reading row `i` of both frames. -/
def tableRowsOf (df_before df_after : List Point) : List String :=
  (List.range (min 10 df_before.length)).map fun i =>
    tableRow (df_before.getD i default) (df_after.getD i default)

/-- Mean of a pandas Series (used by lines 351–352). -/
def seriesMean (xs : List ℚ) : ℚ := xs.sum / xs.length

/-- Pandas `Series.std()` of line 354 — default `ddof = 1` — up to the final
square root: the value held here is the square of the printed std, the sum of
squared deviations from the mean divided by `n − 1`; `none` embeds the NaN
that pandas returns when `n ≤ 1`.  The square root is omitted because it is
irrational in general; the divisor and the NaN cases are fully visible in the
square. -/
def seriesStdSq (xs : List ℚ) : Option ℚ :=
  if xs.length ≤ 1 then none
  else some ((xs.map fun x => (x - seriesMean xs) ^ 2).sum / ((xs.length : ℚ) - 1))

/-- The population alternative named by the claim (divisor `n`, defined for
any nonempty series), for comparison with `seriesStdSq`. -/
def popStdSq (xs : List ℚ) : Option ℚ :=
  if xs.length = 0 then none
  else some ((xs.map fun x => (x - seriesMean xs) ^ 2).sum / (xs.length : ℚ))

/-- The report of `generate_markdown_report`, by section, in source order.
The final Markdown string is the concatenation
`header ++ generalFormula ++ substitutedFormula ++ workedExample ++ tableHead
 ++ String.join rows ++ "\n" ++ "## Статистика (X\x27, Y\x27, Z\x27)\n"
 ++ meanLine ++ stdLine`, where `stdLine` renders the square roots of the
three components of `stdSq` with `%.3f` (`nan` for `none`); the square roots
are irrational in general, so the std values are carried as their squares. -/
structure Report where
  header : String
  generalFormula : String
  substitutedFormula : String
  workedExample : String
  tableHead : String
  rows : List String
  meanLine : String
  statsMeans : ℚ × ℚ × ℚ
  stdSq : Option ℚ × Option ℚ × Option ℚ

/-- The report generator of `src/main.py` lines 303–356.  `none` embeds the
`IndexError` the source raises at `df_before.iloc[0]` / `df_after.iloc[0]`
when a batch is empty; otherwise every section is produced from the two
batches and the two frame names exactly as in the source. -/
def generate_markdown_report (df_before df_after : List Point)
    (source_system target_system : String) : Option Report :=
  match df_before, df_after with
  | b0 :: _, a0 :: _ =>
      some
        { header := reportHeader source_system target_system
          generalFormula := generalFormulaText
          substitutedFormula := substitutedFormulaText
          workedExample := workedExampleText b0 a0
          tableHead := tableHeadText
          rows := tableRowsOf df_before df_after
          meanLine :=
            "- mean: X\x27=" ++ fmtFixed 3 (seriesMean (df_after.map Point.x))
              ++ ", Y\x27=" ++ fmtFixed 3 (seriesMean (df_after.map Point.y))
              ++ ", Z\x27=" ++ fmtFixed 3 (seriesMean (df_after.map Point.z)) ++ "\n"
          statsMeans :=
            (seriesMean (df_after.map Point.x), seriesMean (df_after.map Point.y),
              seriesMean (df_after.map Point.z))
          stdSq :=
            (seriesStdSq (df_after.map Point.x), seriesStdSq (df_after.map Point.y),
              seriesStdSq (df_after.map Point.z)) }
  | _, _ => none

/-- C3 counterexample: the pair (СК-42, СК-95) — neither side the hub, no
parameter set for the pair as such, not the special pair — does NOT fail: the
code ignores the target and returns the СК-42→hub image of the batch. -/
theorem no_unsupported_pair_error_counterexample :
    ("СК-42" : String) ≠ "ГСК-2011" ∧ ("СК-95" : String) ≠ "ГСК-2011"
      ∧ ¬(("СК-42" : String) = "СК-95" ∧ ("СК-95" : String) = "СК-42")
      ∧ GSK_2011 "СК-42" "СК-95" create_default_parameters [⟨"A", 0, 0, 0⟩] =
          .ok [⟨"A", 23.56, -140.86, -79.77⟩] := by
  refine ⟨by decide, by decide, by decide, ?_⟩
  rw [gsk_direct_of_not_special _ _ _ _ (by decide)]
  have hp : create_default_parameters.lookup "СК-42" =
      some ⟨23.56, -140.86, -79.77, -8.423e-9, -1.678e-6, -3.849e-6, -0.2274⟩ := rfl
  simp only [directGSK, hp, List.map_cons, List.map_nil, applyFormula]
  norm_num

/-- C3 amended: `GSK_2011` never raises an unsupported-pair error; outside the
special pair it ignores the target entirely — it fails (unknown frame) exactly
when the source has no entry, and otherwise succeeds with the source→hub
formula applied to every row, whatever the target is. -/
theorem no_unsupported_pair_error (sk1 sk2 : String) (params : ParamStore)
    (df : List Point) (hs : ¬(sk1 = "СК-95" ∧ sk2 = "СК-42")) :
    (params.lookup sk1 = none →
        GSK_2011 sk1 sk2 params df = .error (.unknownFrame sk1))
      ∧ ∀ p, params.lookup sk1 = some p →
        GSK_2011 sk1 sk2 params df = .ok (df.map (applyFormula p)) := by
  rw [gsk_direct_of_not_special sk1 sk2 params df hs]
  constructor
  · intro h; simp [directGSK, h]
  · intro p h; simp [directGSK, h]

/-- Closed instance of `no_unsupported_pair_error`: the pair (СК-42, СК-95)
succeeds with the source→hub formula. -/
theorem no_unsupported_pair_error_witness :
    GSK_2011 "СК-42" "СК-95" create_default_parameters [⟨"B", 1, 1, 1⟩] =
      .ok ([⟨"B", 1, 1, 1⟩].map (applyFormula
        ⟨23.56, -140.86, -79.77, -8.423e-9, -1.678e-6, -3.849e-6, -0.2274⟩)) :=
  (no_unsupported_pair_error "СК-42" "СК-95" create_default_parameters
    [⟨"B", 1, 1, 1⟩] (by decide)).2 _ rfl

/-- The substituted-formula section of a generated report (`none` when no
report is generated because a batch is empty). -/
def reportSection2 (df_before df_after : List Point)
    (source_system target_system : String) : Option String :=
  (generate_markdown_report df_before df_after source_system target_system).map
    Report.substitutedFormula

/-- C4 counterexample: two requests differing only in the source frame
(СК-95 vs СК-42) produce byte-identical substituted-formula sections — the
section is fixed text, not per-frame text. -/
theorem substituted_formula_not_per_frame :
    ("СК-95" : String) ≠ "СК-42"
      ∧ reportSection2 [⟨"A", 1, 2, 3⟩] [⟨"A", 4, 5, 6⟩] "СК-95" "ГСК-2011" =
        reportSection2 [⟨"A", 1, 2, 3⟩] [⟨"A", 4, 5, 6⟩] "СК-42" "ГСК-2011" :=
  ⟨by decide, rfl⟩

/-- C4 amended: section 2 of every generated report is one fixed string (its
numerals are СК-42's coefficients) with no dependence on the request's source
frame: any two generated reports have identical substituted-formula
sections. -/
theorem substituted_formula_fixed (b a b2 a2 : List Point) (s t s2 t2 : String)
    (hb : b ≠ []) (ha : a ≠ []) (hb2 : b2 ≠ []) (ha2 : a2 ≠ []) :
    reportSection2 b a s t = reportSection2 b2 a2 s2 t2 := by
  cases b with
  | nil => exact absurd rfl hb
  | cons b0 bs =>
    cases a with
    | nil => exact absurd rfl ha
    | cons a0 rest =>
      cases b2 with
      | nil => exact absurd rfl hb2
      | cons c0 cs =>
        cases a2 with
        | nil => exact absurd rfl ha2
        | cons d0 ds => rfl

/-- Closed instance of `substituted_formula_fixed` on two different requests. -/
theorem substituted_formula_fixed_witness :
    ([(⟨"A", 1, 2, 3⟩ : Point)] ≠ [])
      ∧ reportSection2 [⟨"A", 1, 2, 3⟩] [⟨"A", 4, 5, 6⟩] "СК-95" "ГСК-2011" =
        reportSection2 [⟨"B", 7, 8, 9⟩] [⟨"B", 0, 1, 2⟩] "СК-42" "СК-95" :=
  ⟨by simp,
    substituted_formula_fixed _ _ _ _ "СК-95" "ГСК-2011" "СК-42" "СК-95"
      (by simp) (by simp) (by simp) (by simp)⟩

/-- C8: for equal-length nonempty batches, the generated table holds exactly
`min 10 n` data rows, the first `min 10 n` input rows in order, each rendered
by `tableRow` (name plus the six coordinates under `%.6f`). -/
theorem table_first_min_ten_rows (b0 a0 : Point) (bs as2 : List Point)
    (src tgt : String) (_hlen : bs.length = as2.length) :
    (generate_markdown_report (b0 :: bs) (a0 :: as2) src tgt).map
          (fun r => r.rows.length) =
        some (min 10 (b0 :: bs).length)
      ∧ ∀ i, i < min 10 (b0 :: bs).length →
        (generate_markdown_report (b0 :: bs) (a0 :: as2) src tgt).map
            (fun r => r.rows.getD i "") =
          some (tableRow ((b0 :: bs).getD i default) ((a0 :: as2).getD i default)) := by
  constructor
  · simp [generate_markdown_report, tableRowsOf]
  · intro i hi
    simp only [generate_markdown_report, Option.map_some', tableRowsOf]
    rw [List.getD, List.get?_eq_getElem?, List.getElem?_map, List.getElem?_range hi]
    rfl

/-- Closed instance of `table_first_min_ten_rows` on a batch of three rows:
three data rows, and row 1 is built from input row 1 of each batch. -/
theorem table_first_min_ten_rows_witness :
    (generate_markdown_report
          [⟨"A", 1, 2, 3⟩, ⟨"B", 4, 5, 6⟩, ⟨"C", 7, 8, 9⟩]
          [⟨"A", 2, 3, 4⟩, ⟨"B", 5, 6, 7⟩, ⟨"C", 8, 9, 10⟩] "СК-42" "ГСК-2011").map
        (fun r => r.rows.length) =
      some (min 10 ([(⟨"A", 1, 2, 3⟩ : Point), ⟨"B", 4, 5, 6⟩, ⟨"C", 7, 8, 9⟩]).length)
    ∧ (generate_markdown_report
          [⟨"A", 1, 2, 3⟩, ⟨"B", 4, 5, 6⟩, ⟨"C", 7, 8, 9⟩]
          [⟨"A", 2, 3, 4⟩, ⟨"B", 5, 6, 7⟩, ⟨"C", 8, 9, 10⟩] "СК-42" "ГСК-2011").map
        (fun r => r.rows.getD 1 "") =
      some (tableRow
        ([(⟨"A", 1, 2, 3⟩ : Point), ⟨"B", 4, 5, 6⟩, ⟨"C", 7, 8, 9⟩].getD 1 default)
        ([(⟨"A", 2, 3, 4⟩ : Point), ⟨"B", 5, 6, 7⟩, ⟨"C", 8, 9, 10⟩].getD 1 default)) :=
  ⟨(table_first_min_ten_rows ⟨"A", 1, 2, 3⟩ ⟨"A", 2, 3, 4⟩
      [⟨"B", 4, 5, 6⟩, ⟨"C", 7, 8, 9⟩] [⟨"B", 5, 6, 7⟩, ⟨"C", 8, 9, 10⟩]
      "СК-42" "ГСК-2011" rfl).1,
    (table_first_min_ten_rows ⟨"A", 1, 2, 3⟩ ⟨"A", 2, 3, 4⟩
      [⟨"B", 4, 5, 6⟩, ⟨"C", 7, 8, 9⟩] [⟨"B", 5, 6, 7⟩, ⟨"C", 8, 9, 10⟩]
      "СК-42" "ГСК-2011" rfl).2 1 (by decide)⟩

/-- C10: the report's summary statistics are taken over the entire transformed
batch; the std is the pandas-default sample one — its square divides the sum
of squared deviations by `n − 1`, so a one-row batch yields NaN — and it
differs from the population std (divisor `n`): on the series `[0, 2]` the
squares are 2 vs 1.  The mean line renders the whole-batch means with
`%.3f`. -/
theorem report_stats_sample_std :
    (∀ b0 a0 : Point, ∀ bs as2 : List Point, ∀ src tgt : String,
        (generate_markdown_report (b0 :: bs) (a0 :: as2) src tgt).map Report.stdSq =
            some (seriesStdSq ((a0 :: as2).map Point.x),
              seriesStdSq ((a0 :: as2).map Point.y),
              seriesStdSq ((a0 :: as2).map Point.z))
          ∧ (generate_markdown_report (b0 :: bs) (a0 :: as2) src tgt).map
              Report.statsMeans =
            some (seriesMean ((a0 :: as2).map Point.x),
              seriesMean ((a0 :: as2).map Point.y),
              seriesMean ((a0 :: as2).map Point.z))
          ∧ (generate_markdown_report (b0 :: bs) (a0 :: as2) src tgt).map
              Report.meanLine =
            some ("- mean: X\x27=" ++ fmtFixed 3 (seriesMean ((a0 :: as2).map Point.x))
              ++ ", Y\x27=" ++ fmtFixed 3 (seriesMean ((a0 :: as2).map Point.y))
              ++ ", Z\x27=" ++ fmtFixed 3 (seriesMean ((a0 :: as2).map Point.z)) ++ "\n"))
      ∧ (∀ q : ℚ, seriesStdSq [q] = none)
      ∧ seriesStdSq [0, 2] = some 2
      ∧ popStdSq [0, 2] = some 1 := by
  refine ⟨fun b0 a0 bs as2 src tgt => ⟨rfl, rfl, rfl⟩, fun q => rfl, ?_, ?_⟩
  · simp [seriesStdSq, seriesMean]
    norm_num
  · simp [popStdSq, seriesMean]
    norm_num

end Prac10
